import Mathlib

/-!
Shallow embedding of `scripts/phase_4_2_2/reliable_mock.py`, a mock
vector-database HTTP server (class `ReliableMock`).

The server keeps a process-wide counter `count : Nat` (initially 0) and an
immutable `start_time`.  Wall-clock instants are modelled as rationals; the
current time is passed to each handler explicitly.  A request body is
modelled by the outcome of `json.loads` on it: either `malformed` (the call
raises) or a parsed JSON object carrying an optional string `"id"` field.
A handler that raises an unhandled exception produces no HTTP response,
which we model as `none`.
-/

namespace ReliableMock

/-- `hasPrefix p s` holds when the character list `p` is an initial
segment of `s`. -/
def hasPrefix : List Char → List Char → Bool
  | [], _ => true
  | _ :: _, [] => false
  | p :: ps, c :: cs => p == c && hasPrefix ps cs

/-- `hasInfix p s` holds when `p` occurs contiguously somewhere in `s`. -/
def hasInfix (pat : List Char) : List Char → Bool
  | [] => hasPrefix pat []
  | c :: cs => hasPrefix pat (c :: cs) || hasInfix pat cs

/-- Python `pat in s` substring containment on strings. -/
def strContains (s pat : String) : Bool :=
  hasInfix pat.toList s.toList

/-- Python `int()` applied to a real-valued quantity: truncation toward
zero (floor for nonnegative arguments, ceiling for negative ones). -/
def pyInt (x : ℚ) : ℤ :=
  if 0 ≤ x then ⌊x⌋ else ⌈x⌉

/-- Outcome of `json.loads` on the request body followed by `.get('id')`:
either the parse raises (`malformed`), or it yields an object whose
`"id"` field is `some` string or absent. -/
inductive JsonBody where
  | malformed : JsonBody
  | obj : Option String → JsonBody
deriving DecidableEq, Repr

/-- The JSON payload written by a handler via `json.dumps`. -/
inductive RespBody where
  | /-- `{"status": s, "requests": n, "uptime": u}` -/
    health : String → Nat → ℤ → RespBody
  | /-- `{"id": i, "status": s}` -/
    inserted : String → String → RespBody
deriving DecidableEq, Repr

/-- An HTTP response: status code, optional `Content-Type` header, and
optional JSON body (the bare 404s have neither header nor body). -/
structure HttpResponse where
  status : Nat
  contentType : Option String
  body : Option RespBody
deriving DecidableEq, Repr

/-- `send_response(404); end_headers()` with nothing written. -/
def notFound : HttpResponse := ⟨404, none, none⟩

/-- `ReliableMock.do_GET`: routes on `'health' in self.path`; the health
branch reads `count` and reports `int(time.time() - start_time)`. -/
def do_GET (count : Nat) (start now : ℚ) (path : String) : HttpResponse :=
  if strContains path "health" then
    ⟨200, some "application/json",
      some (.health "healthy" count (pyInt (now - start)))⟩
  else
    notFound

/-- The progress line printed by `do_POST` every 25th insert:
`Processed {count} vectors ({rate}/sec)` with
`rate = count / elapsed if elapsed > 0 else 0`. -/
def progressLine (count : Nat) (start now : ℚ) : Nat × ℚ :=
  let elapsed := now - start
  (count, if 0 < elapsed then (count : ℚ) / elapsed else 0)

/-- Result of one `do_POST` call: the new value of the class-level
counter, the response sent (`none` when an unhandled exception aborts the
handler before `send_response`), and the progress line printed, if any. -/
structure PostResult where
  count : Nat
  response : Option HttpResponse
  progress : Option (Nat × ℚ)
deriving DecidableEq, Repr

/-- `ReliableMock.do_POST`: routes on `'vector' in self.path`; increments
the counter first, then reads `Content-Length` (default 0), parses the
body when the length is nonzero (propagating a `json.loads` failure as an
unhandled exception), answers 200 with the echoed or synthesized id, and
prints a progress line when the new count is a multiple of 25. -/
def do_POST (count : Nat) (start now : ℚ) (path : String)
    (contentLength : Option Nat) (body : JsonBody) : PostResult :=
  if strContains path "vector" then
    let count := count + 1
    let length := contentLength.getD 0
    if length ≠ 0 then
      match body with
      | .malformed => ⟨count, none, none⟩
      | .obj idField =>
        let vector_id := idField.getD ("vec_" ++ toString count)
        ⟨count,
          some ⟨200, some "application/json",
            some (.inserted vector_id "inserted")⟩,
          if count % 25 = 0 then some (progressLine count start now) else none⟩
    else
      let vector_id := "vec_" ++ toString count
      ⟨count,
        some ⟨200, some "application/json",
          some (.inserted vector_id "inserted")⟩,
        if count % 25 = 0 then some (progressLine count start now) else none⟩
  else
    ⟨count, some notFound, none⟩

/-- One incoming request, carrying the wall-clock instant at which it is
handled. -/
inductive Event where
  | get : String → ℚ → Event
  | post : String → Option Nat → JsonBody → ℚ → Event
deriving DecidableEq, Repr

/-- Effect of one request on the server counter: `do_GET` performs no
mutation, `do_POST` yields its `count` component. -/
def stepCount (start : ℚ) (count : Nat) (e : Event) : Nat :=
  match e with
  | .get _ _ => count
  | .post path cl body now => (do_POST count start now path cl body).count

/-- The response the server sends for one request at counter value
`count` (`none` when the handler dies with an unhandled exception). -/
def eventResponse (start : ℚ) (count : Nat) (e : Event) : Option HttpResponse :=
  match e with
  | .get path now => some (do_GET count start now path)
  | .post path cl body now => (do_POST count start now path cl body).response

/-- The progress line (if any) printed while handling one request. -/
def eventProgress (start : ℚ) (count : Nat) (e : Event) : Option (Nat × ℚ) :=
  match e with
  | .get _ _ => none
  | .post path cl body now => (do_POST count start now path cl body).progress

/-- A request that takes the successful-insert path of `do_POST`: a POST
whose path contains `"vector"` and whose body parses whenever a nonzero
`Content-Length` makes the handler read it. -/
def insertOk (e : Event) : Bool :=
  match e with
  | .get _ _ => false
  | .post path cl body _ =>
    strContains path "vector" &&
      (decide (cl.getD 0 = 0) || decide (body ≠ JsonBody.malformed))

/-- All progress lines printed while serving `events` starting from
counter value `count`. -/
def traceProgress (start : ℚ) (count : Nat) : List Event → List (Nat × ℚ)
  | [] => []
  | e :: es =>
    (eventProgress start count e).toList ++
      traceProgress start (stepCount start count e) es

/-- The `"requests"` field of a health response. -/
def healthRequests (r : HttpResponse) : Option Nat :=
  match r.body with
  | some (.health _ n _) => some n
  | _ => none

/-- The `"uptime"` field of a health response. -/
def healthUptime (r : HttpResponse) : Option ℤ :=
  match r.body with
  | some (.health _ _ u) => some u
  | _ => none

example : strContains "/api/v1/health" "health" = true := by decide
example : strContains "/healthcheck" "health" = true := by decide
example : strContains "/unknown" "health" = false := by decide
example : do_POST 0 0 1 "/api/v1/vectors" (some 9) (.obj (some "abc")) =
    ⟨1, some ⟨200, some "application/json", some (.inserted "abc" "inserted")⟩,
      none⟩ := by decide
example : do_POST 3 0 1 "/api/v1/vectors" none .malformed =
    ⟨4, some ⟨200, some "application/json", some (.inserted "vec_4" "inserted")⟩,
      none⟩ := by decide
example : do_POST 3 0 1 "/api/v1/vectors" (some 5) .malformed =
    ⟨4, none, none⟩ := by decide
example : (do_POST 24 0 2 "/api/v1/vectors" none (.obj none)).progress =
    some (25, 25 / 2) := by
  have hv : strContains "/api/v1/vectors" "vector" = true := by decide
  simp [do_POST, hv, progressLine]

/-- The optional `"id"` field carried by a parsed request body (a
malformed body never reaches the `.get('id')` call). -/
def idFieldOf : JsonBody → Option String
  | .malformed => none
  | .obj f => f

/-! ### Helper lemmas -/

/-- The counter after a POST: incremented exactly when the path contains
`"vector"` (even on the malformed-body path), unchanged otherwise. -/
theorem do_POST_count_eq (count : Nat) (start now : ℚ) (path : String)
    (cl : Option Nat) (body : JsonBody) :
    (do_POST count start now path cl body).count =
      if strContains path "vector" then count + 1 else count := by
  by_cases hv : strContains path "vector" = true
  · rcases body with _ | idField <;> simp only [do_POST, hv, if_true] <;>
      split <;> simp
  · simp only [Bool.not_eq_true] at hv
    simp [do_POST, hv]

/-- Unpacking `insertOk` on a POST event. -/
theorem insertOk_post (path : String) (cl : Option Nat) (body : JsonBody)
    (now : ℚ) (h : insertOk (.post path cl body now) = true) :
    strContains path "vector" = true ∧
      (cl.getD 0 = 0 ∨ body ≠ JsonBody.malformed) := by
  simpa [insertOk] using h

/-- A request taking the successful-insert path increments the counter by
exactly one. -/
theorem stepCount_of_insertOk (start : ℚ) (count : Nat) (e : Event)
    (h : insertOk e = true) : stepCount start count e = count + 1 := by
  match e with
  | .get _ _ => simp [insertOk] at h
  | .post path cl body now =>
    obtain ⟨hv, -⟩ := insertOk_post path cl body now h
    simp [stepCount, do_POST_count_eq, hv]

/-- No request ever decreases the counter. -/
theorem stepCount_mono (start : ℚ) (count : Nat) (e : Event) :
    count ≤ stepCount start count e := by
  match e with
  | .get _ _ => exact Nat.le_refl _
  | .post path cl body now =>
    simp only [stepCount, do_POST_count_eq]
    split <;> omega

/-- Folding the counter over a list of successful inserts adds the length
of the list. -/
theorem foldl_stepCount_ok (start : ℚ) (events : List Event)
    (h : ∀ e ∈ events, insertOk e = true) (c : Nat) :
    events.foldl (stepCount start) c = c + events.length := by
  induction events generalizing c with
  | nil => simp
  | cons e es ih =>
    have he : insertOk e = true := h e (List.mem_cons_self e es)
    have hes : ∀ x ∈ es, insertOk x = true :=
      fun x hx => h x (List.mem_cons_of_mem e hx)
    rw [List.foldl_cons, stepCount_of_insertOk start c e he, ih hes]
    simp [Nat.add_comm, Nat.add_assoc, Nat.add_left_comm]

/-- The response to a successful insert: 200, `application/json`, body
`{"id": i, "status": "inserted"}` where `i` is the request id if the body
was read and supplied one and `vec_<new count>` otherwise. -/
theorem do_POST_response_ok (count : Nat) (start now : ℚ) (path : String)
    (cl : Option Nat) (body : JsonBody)
    (hv : strContains path "vector" = true)
    (hok : cl.getD 0 = 0 ∨ body ≠ JsonBody.malformed) :
    (do_POST count start now path cl body).response =
      some ⟨200, some "application/json",
        some (.inserted
          ((if cl.getD 0 = 0 then none else idFieldOf body).getD
            ("vec_" ++ toString (count + 1))) "inserted")⟩ := by
  by_cases hl : cl.getD 0 = 0
  · simp [do_POST, hv, hl]
  · rcases body with _ | idField
    · exact absurd (hok.resolve_left hl) (by simp)
    · simp [do_POST, hv, hl, idFieldOf]

/-- The progress line emitted by a successful insert: present exactly when
the new count is a multiple of 25. -/
theorem do_POST_progress_ok (count : Nat) (start now : ℚ) (path : String)
    (cl : Option Nat) (body : JsonBody)
    (hv : strContains path "vector" = true)
    (hok : cl.getD 0 = 0 ∨ body ≠ JsonBody.malformed) :
    (do_POST count start now path cl body).progress =
      if (count + 1) % 25 = 0 then some (progressLine (count + 1) start now)
      else none := by
  by_cases hl : cl.getD 0 = 0
  · simp [do_POST, hv, hl]
  · rcases body with _ | idField
    · exact absurd (hok.resolve_left hl) (by simp)
    · simp [do_POST, hv, hl]

/-- `pyInt` is monotone. -/
theorem pyInt_mono (x y : ℚ) (h : x ≤ y) : pyInt x ≤ pyInt y := by
  unfold pyInt
  split <;> split
  all_goals rename_i h1 h2
  · exact Int.floor_le_floor h
  · exact absurd (le_trans h1 h) h2
  · have hx : x ≤ ((0 : ℤ) : ℚ) := by exact_mod_cast le_of_not_le h1
    exact le_trans (Int.ceil_le.mpr hx) (Int.floor_nonneg.mpr h2)
  · exact Int.ceil_le_ceil h

/-- Counting progress lines over a trace of successful inserts. -/
theorem traceProgress_length_aux (start : ℚ) (events : List Event)
    (h : ∀ e ∈ events, insertOk e = true) (c : Nat) :
    (traceProgress start c events).length = (c + events.length) / 25 - c / 25 := by
  induction events generalizing c with
  | nil => simp [traceProgress]
  | cons e es ih =>
    have he : insertOk e = true := h e (List.mem_cons_self e es)
    have hes : ∀ x ∈ es, insertOk x = true :=
      fun x hx => h x (List.mem_cons_of_mem e hx)
    match e with
    | .get _ _ => simp [insertOk] at he
    | .post path cl body now =>
      obtain ⟨hv, hok⟩ := insertOk_post path cl body now he
      have hstep : stepCount start c (.post path cl body now) = c + 1 :=
        stepCount_of_insertOk start c _ he
      have hprog : eventProgress start c (.post path cl body now) =
          if (c + 1) % 25 = 0 then some (progressLine (c + 1) start now)
          else none :=
        do_POST_progress_ok c start now path cl body hv hok
      rw [traceProgress, hstep, hprog, List.length_append, ih hes (c + 1)]
      by_cases hd : (c + 1) % 25 = 0
      · simp only [hd, if_true, Option.toList_some, List.length_cons,
          List.length_nil, List.length]
        omega
      · simp only [hd, if_false, Option.toList_none, List.length_nil,
          List.length]
        omega

/-! ### Claim theorems -/

/-- C1: every successful vector-insert increments the counter by exactly
one, no operation ever decrements it, after `N` successful inserts from
the initial state the counter is `N`, and the health endpoint reads that
value back unchanged. -/
theorem C1_counter_counts_inserts (start : ℚ) :
    (∀ (count : Nat) (e : Event), insertOk e = true →
      stepCount start count e = count + 1) ∧
    (∀ (count : Nat) (e : Event), count ≤ stepCount start count e) ∧
    (∀ events : List Event, (∀ e ∈ events, insertOk e = true) →
      events.foldl (stepCount start) 0 = events.length) ∧
    (∀ events : List Event, (∀ e ∈ events, insertOk e = true) →
      ∀ (now : ℚ) (path : String), strContains path "health" = true →
        healthRequests (do_GET (events.foldl (stepCount start) 0) start now path) =
          some events.length) := by
  refine ⟨fun count e he => stepCount_of_insertOk start count e he,
    fun count e => stepCount_mono start count e,
    fun events h => by rw [foldl_stepCount_ok start events h 0, Nat.zero_add],
    fun events h now path hp => ?_⟩
  rw [foldl_stepCount_ok start events h 0, Nat.zero_add]
  simp [do_GET, hp, healthRequests]

/-- C1 witness: two successful inserts from the initial state leave the
counter at 2, and a health read reports 2. -/
theorem C1_counter_counts_inserts_witness :
    ([Event.post "/api/v1/vectors" none (.obj none) 1,
      Event.post "/api/v1/vectors" (some 9) (.obj (some "abc")) 2].foldl
        (stepCount 0) 0 = 2) ∧
    healthRequests (do_GET
      ([Event.post "/api/v1/vectors" none (.obj none) 1,
        Event.post "/api/v1/vectors" (some 9) (.obj (some "abc")) 2].foldl
          (stepCount 0) 0) 0 3 "/api/v1/health") = some 2 := by
  refine ⟨(C1_counter_counts_inserts 0).2.2.1 _ (by decide),
    (C1_counter_counts_inserts 0).2.2.2 _ (by decide) 3 "/api/v1/health"
      (by decide)⟩

/-- C2: a vector-insert whose JSON body is read (nonzero `Content-Length`)
and carries an `"id"` field is answered 200 with that id echoed unchanged
and status `"inserted"`. -/
theorem C2_insert_echoes_id (count : Nat) (start now : ℚ) (path : String)
    (cl : Option Nat) (id : String)
    (hv : strContains path "vector" = true) (hl : cl.getD 0 ≠ 0) :
    (do_POST count start now path cl (.obj (some id))).response =
      some ⟨200, some "application/json", some (.inserted id "inserted")⟩ := by
  rw [do_POST_response_ok count start now path cl (.obj (some id)) hv
    (Or.inr (by simp))]
  simp [idFieldOf, hl]

/-- C2 witness: inserting `{"id":"abc"}` echoes `"abc"`. -/
theorem C2_insert_echoes_id_witness :
    (do_POST 0 0 1 "/api/v1/vectors" (some 14) (.obj (some "abc"))).response =
      some ⟨200, some "application/json", some (.inserted "abc" "inserted")⟩ :=
  C2_insert_echoes_id 0 0 1 "/api/v1/vectors" (some 14) "abc" (by decide)
    (by decide)

/-- C3: with `Content-Length` zero or absent the body is never parsed
(any body, even a malformed one, yields the same answer) and the response
id is the synthesized `vec_<k+1>`; a parsed body lacking `"id"` yields the
same synthesized id. -/
theorem C3_synthesized_id (k : Nat) (start now : ℚ) (path : String)
    (hv : strContains path "vector" = true) :
    (∀ (cl : Option Nat) (body : JsonBody), cl.getD 0 = 0 →
      (do_POST k start now path cl body).response =
        some ⟨200, some "application/json",
          some (.inserted ("vec_" ++ toString (k + 1)) "inserted")⟩) ∧
    (∀ cl : Option Nat, cl.getD 0 ≠ 0 →
      (do_POST k start now path cl (.obj none)).response =
        some ⟨200, some "application/json",
          some (.inserted ("vec_" ++ toString (k + 1)) "inserted")⟩) := by
  constructor
  · intro cl body hl
    rw [do_POST_response_ok k start now path cl body hv (Or.inl hl)]
    simp [hl]
  · intro cl hl
    rw [do_POST_response_ok k start now path cl (.obj none) hv
      (Or.inr (by simp))]
    simp [idFieldOf, hl]

/-- C3 witness: at counter 3, an absent body and a body without `"id"`
both produce `vec_4`. -/
theorem C3_synthesized_id_witness :
    (do_POST 3 0 1 "/api/v1/vectors" none JsonBody.malformed).response =
      some ⟨200, some "application/json",
        some (.inserted ("vec_" ++ toString 4) "inserted")⟩ ∧
    (do_POST 3 0 1 "/api/v1/vectors" (some 2) (.obj none)).response =
      some ⟨200, some "application/json",
        some (.inserted ("vec_" ++ toString 4) "inserted")⟩ :=
  ⟨(C3_synthesized_id 3 0 1 "/api/v1/vectors" (by decide)).1 none
      JsonBody.malformed (by decide),
    (C3_synthesized_id 3 0 1 "/api/v1/vectors" (by decide)).2 (some 2)
      (by decide)⟩

/-- C4: every GET whose path contains `"health"` is answered 200 with
`Content-Type: application/json` and body
`{"status":"healthy","requests":<count>,"uptime":⌊now - start⌋}`. -/
theorem C4_health_response (count : Nat) (start now : ℚ) (path : String)
    (hp : strContains path "health" = true) (ht : start ≤ now) :
    do_GET count start now path =
      ⟨200, some "application/json",
        some (.health "healthy" count ⌊now - start⌋)⟩ := by
  have hnn : (0 : ℚ) ≤ now - start := sub_nonneg.mpr ht
  simp [do_GET, hp, pyInt, hnn]

/-- C4 witness: a health GET at time 3/2 after start reports uptime 1. -/
theorem C4_health_response_witness :
    do_GET 7 0 (3 / 2) "/api/v1/health" =
      ⟨200, some "application/json", some (.health "healthy" 7 1)⟩ := by
  rw [C4_health_response 7 0 (3 / 2) "/api/v1/health" (by decide) (by norm_num)]
  norm_num

/-- C5: any GET whose path does not contain `"health"` and any POST whose
path does not contain `"vector"` get a bare 404 with empty body; the route
test is substring containment, so `/api/v1/health` and `/healthcheck`
both match `"health"`. -/
theorem C5_unmatched_routes_404 :
    (∀ (count : Nat) (start now : ℚ) (path : String),
      strContains path "health" = false →
        do_GET count start now path = notFound) ∧
    (∀ (count : Nat) (start now : ℚ) (path : String) (cl : Option Nat)
        (body : JsonBody), strContains path "vector" = false →
      do_POST count start now path cl body = ⟨count, some notFound, none⟩) ∧
    strContains "/api/v1/health" "health" = true ∧
    strContains "/healthcheck" "health" = true := by
  refine ⟨fun count start now path hp => by simp [do_GET, hp],
    fun count start now path cl body hp => by simp [do_POST, hp],
    by decide, by decide⟩

/-- C5 witness: `/unknown` GET and `/api/v1/embeddings` POST both 404. -/
theorem C5_unmatched_routes_404_witness :
    do_GET 5 0 1 "/unknown" = notFound ∧
    do_POST 5 0 1 "/api/v1/embeddings" (some 3) (.obj (some "x")) =
      ⟨5, some notFound, none⟩ :=
  ⟨C5_unmatched_routes_404.1 5 0 1 "/unknown" (by decide),
    C5_unmatched_routes_404.2.1 5 0 1 "/api/v1/embeddings" (some 3)
      (.obj (some "x")) (by decide)⟩

/-- C6: a vector-insert with nonzero `Content-Length` whose body fails to
parse as JSON aborts with an unhandled exception: no response — in
particular no 200 — is sent for that request. -/
theorem C6_malformed_body_unhandled (count : Nat) (start now : ℚ)
    (path : String) (cl : Option Nat)
    (hv : strContains path "vector" = true) (hl : cl.getD 0 ≠ 0) :
    (do_POST count start now path cl JsonBody.malformed).response = none := by
  simp [do_POST, hv, hl]

/-- C6 witness: a malformed 5-byte body on `/api/v1/vectors` yields no
response. -/
theorem C6_malformed_body_unhandled_witness :
    (do_POST 3 0 1 "/api/v1/vectors" (some 5) JsonBody.malformed).response =
      none :=
  C6_malformed_body_unhandled 3 0 1 "/api/v1/vectors" (some 5) (by decide)
    (by decide)

/-- C7: a successful insert prints a progress line exactly when the new
count is a multiple of 25, carrying rate `count / elapsed` (0 when the
elapsed time is not positive); over any all-successful trace the number of
progress lines is `N / 25`. -/
theorem C7_progress_every_25 (start : ℚ) :
    (∀ (count : Nat) (now : ℚ) (path : String) (cl : Option Nat)
        (body : JsonBody), insertOk (.post path cl body now) = true →
      (do_POST count start now path cl body).progress =
        if (count + 1) % 25 = 0 then
          some (count + 1,
            if 0 < now - start then ((count : ℚ) + 1) / (now - start) else 0)
        else none) ∧
    (∀ events : List Event, (∀ e ∈ events, insertOk e = true) →
      (traceProgress start 0 events).length = events.length / 25) := by
  constructor
  · intro count now path cl body he
    obtain ⟨hv, hok⟩ := insertOk_post path cl body now he
    rw [do_POST_progress_ok count start now path cl body hv hok]
    simp only [progressLine]
    push_cast
    rfl
  · intro events h
    rw [traceProgress_length_aux start events h 0, Nat.zero_add,
      Nat.zero_div, Nat.sub_zero]

/-- C7 witness: insert number 25 (and only that one among 25 consecutive
successful inserts) prints a progress line, with rate 25/2 after 2
seconds; a trace of 25 successful inserts prints exactly one line. -/
theorem C7_progress_every_25_witness :
    (do_POST 24 0 2 "/api/v1/vectors" none (.obj none)).progress =
      some (25, 25 / 2) ∧
    (do_POST 10 0 2 "/api/v1/vectors" none (.obj none)).progress = none ∧
    (traceProgress 0 0
      (List.replicate 25 (Event.post "/api/v1/vectors" none (.obj none) 1))).length
      = 1 := by
  refine ⟨?_, ?_, ?_⟩
  · rw [(C7_progress_every_25 0).1 24 2 "/api/v1/vectors" none (.obj none)
      (by decide)]
    norm_num
  · rw [(C7_progress_every_25 0).1 10 2 "/api/v1/vectors" none (.obj none)
      (by decide)]
    norm_num
  · have h := (C7_progress_every_25 0).2
      (List.replicate 25 (Event.post "/api/v1/vectors" none (.obj none) 1))
      (by decide)
    simpa using h

/-- C8: handling a GET (in particular a health request) never mutates the
server state: the counter after the request equals the counter before. -/
theorem C8_health_no_mutation (start : ℚ) (count : Nat) (path : String)
    (now : ℚ) :
    stepCount start count (.get path now) = count :=
  rfl

/-- C9: the counter is non-decreasing under every request, the health
uptime field is `pyInt (now - start)`, and that field is monotone in the
wall-clock time of the health call. -/
theorem C9_monotone_counters (start : ℚ) :
    (∀ (count : Nat) (e : Event), count ≤ stepCount start count e) ∧
    (∀ (count : Nat) (t : ℚ) (path : String),
      strContains path "health" = true →
        healthUptime (do_GET count start t path) = some (pyInt (t - start))) ∧
    (∀ t1 t2 : ℚ, t1 ≤ t2 → pyInt (t1 - start) ≤ pyInt (t2 - start)) := by
  refine ⟨fun count e => stepCount_mono start count e,
    fun count t path hp => by simp [do_GET, hp, healthUptime],
    fun t1 t2 h => pyInt_mono _ _ (by linarith)⟩

/-- C9 witness: a malformed insert still leaves the counter no smaller,
health at time 2 reports uptime `pyInt 2`, and uptime at times 1 ≤ 2 is
monotone. -/
theorem C9_monotone_counters_witness :
    (3 ≤ stepCount 0 3 (.post "/api/v1/vectors" (some 5) JsonBody.malformed 1)) ∧
    healthUptime (do_GET 3 0 2 "/healthcheck") = some (pyInt (2 - 0)) ∧
    pyInt (1 - 0) ≤ pyInt (2 - 0) :=
  ⟨(C9_monotone_counters 0).1 3 _,
    (C9_monotone_counters 0).2.1 3 2 "/healthcheck" (by decide),
    (C9_monotone_counters 0).2.2 1 2 (by norm_num)⟩

/-- C10: the insert handler increments the counter before touching the
body, so a malformed-body insert that dies without responding still leaves
the counter incremented by one. -/
theorem C10_increment_precedes_parse (count : Nat) (start now : ℚ)
    (path : String) (cl : Option Nat)
    (hv : strContains path "vector" = true) (hl : cl.getD 0 ≠ 0) :
    (do_POST count start now path cl JsonBody.malformed).count = count + 1 ∧
    (do_POST count start now path cl JsonBody.malformed).response = none := by
  constructor
  · rw [do_POST_count_eq, if_pos hv]
  · simp [do_POST, hv, hl]

/-- C10 witness: a malformed insert at counter 3 leaves counter 4 and no
response. -/
theorem C10_increment_precedes_parse_witness :
    (do_POST 3 0 1 "/api/v1/vectors" (some 5) JsonBody.malformed).count = 4 ∧
    (do_POST 3 0 1 "/api/v1/vectors" (some 5) JsonBody.malformed).response =
      none :=
  C10_increment_precedes_parse 3 0 1 "/api/v1/vectors" (some 5) (by decide)
    (by decide)

end ReliableMock
